import Mathlib

/-!
Shallow embedding of the FBO application-review workflow.

The definitions below mirror, in order:
  * `ApplicationStatus` and `AdminRole` (app/models/organization_application.py,
    app/models/admin.py);
  * the persisted entities `OrganizationApplication`, `ApplicationComment`,
    `Notification` (only the columns the workflow reads or writes);
  * the `PUT /status` handler `update_application_status`
    (app/blueprints/application.py, lines 253-378), including the
    `enabled` gate of the `admin_required` decorator (app/utils/auth.py, lines 72-74);
  * the applicant `PUT /<id>` handler `update_application`
    (app/blueprints/application.py, lines 94-196);
  * the `POST /generate/<id>` handler `generate_certificate`
    (app/blueprints/certificates.py, lines 24-66).

Timestamps are abstract `Nat` ticks; the calendar year used in the
certificate number is an explicit `Nat` argument.
-/

inductive ApplicationStatus where
  | PENDING
  | REVIEWING_AGAIN
  | FBO_REVIEW
  | TRANSFER_TO_DM
  | DM_REVIEW
  | TRANSFER_TO_HOD
  | HOD_REVIEW
  | TRANSFER_TO_SG
  | SG_REVIEW
  | TRANSFER_TO_CEO
  | CEO_REVIEW
  | APPROVED
  | REJECTED
  | CERTIFICATE_ISSUED
deriving DecidableEq, Repr, Fintype

/-- The `.value` string of each `ApplicationStatus` member (the Python enum
value equals the member name). -/
def ApplicationStatus.value : ApplicationStatus → String
  | .PENDING => "PENDING"
  | .REVIEWING_AGAIN => "REVIEWING_AGAIN"
  | .FBO_REVIEW => "FBO_REVIEW"
  | .TRANSFER_TO_DM => "TRANSFER_TO_DM"
  | .DM_REVIEW => "DM_REVIEW"
  | .TRANSFER_TO_HOD => "TRANSFER_TO_HOD"
  | .HOD_REVIEW => "HOD_REVIEW"
  | .TRANSFER_TO_SG => "TRANSFER_TO_SG"
  | .SG_REVIEW => "SG_REVIEW"
  | .TRANSFER_TO_CEO => "TRANSFER_TO_CEO"
  | .CEO_REVIEW => "CEO_REVIEW"
  | .APPROVED => "APPROVED"
  | .REJECTED => "REJECTED"
  | .CERTIFICATE_ISSUED => "CERTIFICATE_ISSUED"

/-- Declaration order of the members of the Python `ApplicationStatus` enum. -/
def allApplicationStatuses : List ApplicationStatus :=
  [.PENDING, .REVIEWING_AGAIN, .FBO_REVIEW, .TRANSFER_TO_DM, .DM_REVIEW,
   .TRANSFER_TO_HOD, .HOD_REVIEW, .TRANSFER_TO_SG, .SG_REVIEW,
   .TRANSFER_TO_CEO, .CEO_REVIEW, .APPROVED, .REJECTED, .CERTIFICATE_ISSUED]

/-- Model of `ApplicationStatus(new_status)`: look the string up among the enum values;
`none` models the `ValueError` raised for an unknown literal. -/
def applicationStatusOfValue (s : String) : Option ApplicationStatus :=
  allApplicationStatuses.find? (fun st => st.value == s)

inductive AdminRole where
  | FBO_OFFICER
  | DIVISION_MANAGER
  | HOD
  | SECRETARY_GENERAL
  | CEO
deriving DecidableEq, Repr, Fintype

/-- The columns of `Admin` the workflow reads. -/
structure Admin where
  id : Nat
  role : AdminRole
  enabled : Bool
deriving DecidableEq, Repr

/-- The columns of `OrganizationApplication` the workflow reads or writes. -/
structure Application where
  id : Nat
  applicant_id : Nat
  processed_by_id : Option Nat
  organization_name : String
  organization_email : String
  organization_phone : String
  acronym : Option String
  status : ApplicationStatus
  last_modified : Nat
  certificate_number : Option String
  certificate_issued_at : Option Nat
  qr_code_data : Option String
deriving DecidableEq, Repr

structure ApplicationComment where
  content : String
  performed_by_id : Nat
  application_id : Nat
deriving DecidableEq, Repr

/-- A `Notification` row: exactly one of `applicant_id` / `admin_id` is set by
each creation site. -/
structure Notification where
  applicant_id : Option Nat
  admin_id : Option Nat
  application_id : Nat
  title : String
  message : String
deriving DecidableEq, Repr

/-- The `valid_transitions` nested dict of `update_application_status`
(application.py lines 269-291): `none` means the inner dict of the role has no key
for the current status. -/
def valid_transitions : AdminRole → ApplicationStatus → Option (List ApplicationStatus)
  | .FBO_OFFICER, .PENDING => some [.FBO_REVIEW, .REVIEWING_AGAIN]
  | .FBO_OFFICER, .FBO_REVIEW => some [.TRANSFER_TO_DM, .REVIEWING_AGAIN]
  | .FBO_OFFICER, .REVIEWING_AGAIN => some [.FBO_REVIEW]
  | .DIVISION_MANAGER, .TRANSFER_TO_DM => some [.DM_REVIEW]
  | .DIVISION_MANAGER, .DM_REVIEW => some [.TRANSFER_TO_HOD, .REVIEWING_AGAIN]
  | .HOD, .TRANSFER_TO_HOD => some [.HOD_REVIEW]
  | .HOD, .HOD_REVIEW => some [.TRANSFER_TO_SG, .REVIEWING_AGAIN]
  | .SECRETARY_GENERAL, .TRANSFER_TO_SG => some [.SG_REVIEW]
  | .SECRETARY_GENERAL, .SG_REVIEW => some [.TRANSFER_TO_CEO, .REJECTED]
  | .CEO, .TRANSFER_TO_CEO => some [.CEO_REVIEW]
  | .CEO, .CEO_REVIEW => some [.APPROVED, .REJECTED]
  | _, _ => none

/-- The outer keys of the `valid_transitions` dict (every role appears). -/
def validTransitionRoles : List AdminRole :=
  [.FBO_OFFICER, .DIVISION_MANAGER, .HOD, .SECRETARY_GENERAL, .CEO]

/-- The `next_role_map` dict (application.py lines 342-347). -/
def next_role_map : ApplicationStatus → Option AdminRole
  | .TRANSFER_TO_DM => some .DIVISION_MANAGER
  | .TRANSFER_TO_HOD => some .HOD
  | .TRANSFER_TO_SG => some .SECRETARY_GENERAL
  | .TRANSFER_TO_CEO => some .CEO
  | _ => none

/-- Python `str.strip()`: drop leading and trailing whitespace. -/
def pyStrip (s : String) : String :=
  String.mk
    (((s.data.dropWhile Char.isWhitespace).reverse.dropWhile
        Char.isWhitespace).reverse)

/-- Python `str.lower()` restricted to ASCII, as used on the e-mail field. -/
def pyLower (s : String) : String :=
  String.mk (s.data.map Char.toLower)

/-- Python `format(n, "06d")`: decimal digits of `n` left-padded with zeros
to a minimum width of six. -/
def padZeros6 (n : Nat) : String :=
  let s := toString n
  String.mk (List.replicate (6 - s.length) '0') ++ s

/-- The certificate number written at application.py line 325:
`f"RGB-\x7bdatetime.now().year\x7d-\x7bapplication.id:06d\x7d"`. -/
def certificateNumberFor (year : Nat) (appId : Nat) : String :=
  "RGB-" ++ toString year ++ "-" ++ padZeros6 appId

/-- Outcome of the `PUT /status` handler: either the committed application row
together with the comment rows and notification rows inserted by the handler,
or an HTTP error response. -/
inductive StatusUpdateResult where
  | ok (application : Application) (comments : List ApplicationComment)
      (notifications : List Notification)
  | err (httpCode : Nat) (message : String)
deriving DecidableEq, Repr

def StatusUpdateResult.isErr : StatusUpdateResult → Bool
  | .ok _ _ _ => false
  | .err _ _ => true

def StatusUpdateResult.httpCode : StatusUpdateResult → Option Nat
  | .ok _ _ _ => none
  | .err code _ => some code

def StatusUpdateResult.commentRows : StatusUpdateResult → Option (List ApplicationComment)
  | .ok _ comments _ => some comments
  | .err _ _ => none

/-- The notification inserted for the applicant on every successful status
update (application.py lines 332-339). -/
def applicantStatusNotification (application : Application)
    (new_status_enum : ApplicationStatus) : Notification :=
  { applicant_id := some application.applicant_id
    admin_id := none
    application_id := application.id
    title := "Application Status Updated"
    message := "Your application for " ++ application.organization_name ++
      " has been updated to " ++ new_status_enum.value }

/-- The notification inserted for one admin of the next role on a handoff
status (application.py lines 349-359). -/
def nextRoleNotification (application : Application) (next_admin : Admin) :
    Notification :=
  { applicant_id := none
    admin_id := some next_admin.id
    application_id := application.id
    title := "Application Ready for Review"
    message := "Application for " ++ application.organization_name ++
      " is ready for your review" }

/-- The `PUT /status` handler (application.py lines 253-378), with the
admin-enabled gate of the `admin_required` decorator (auth.py lines 72-74) in
front.  `admins` is the `Admin` table, consulted by the handoff-notification
fanout.  `year` and `now` stand for `datetime.now().year` and the current
timestamp. -/
def update_application_status (admins : List Admin) (admin : Admin)
    (application : Application) (new_status : String) (comment_content : String)
    (year : Nat) (now : Nat) : StatusUpdateResult :=
  if admin.enabled = false then
    .err 403 "Admin not found or disabled"
  else if new_status = "" then
    .err 400 "Application ID and status required"
  else
    match applicationStatusOfValue new_status with
    | none => .err 400 "Invalid status"
    | some new_status_enum =>
      if admin.role ∉ validTransitionRoles then
        .err 403 "No permission to update status"
      else
        match valid_transitions admin.role application.status with
        | none =>
            .err 400 ("Cannot update application in " ++
              application.status.value ++ " status")
        | some allowed =>
            if new_status_enum ∉ allowed then
              .err 400 ("Invalid status transition from " ++
                application.status.value ++ " to " ++ new_status)
            else
              let app1 : Application :=
                { application with
                    status := new_status_enum
                    processed_by_id := some admin.id
                    last_modified := now }
              let comments : List ApplicationComment :=
                if pyStrip comment_content ≠ "" then
                  [{ content := pyStrip comment_content
                     performed_by_id := admin.id
                     application_id := application.id }]
                else []
              let app2 : Application :=
                if new_status_enum = .APPROVED then
                  { app1 with
                      certificate_number :=
                        some (certificateNumberFor year application.id)
                      certificate_issued_at := some now
                      status := .CERTIFICATE_ISSUED }
                else app1
              let roleNotifications : List Notification :=
                match next_role_map new_status_enum with
                | some nextRole =>
                    ((admins.filter fun a => a.role == nextRole && a.enabled).map
                      (nextRoleNotification application))
                | none => []
              .ok app2 comments
                (applicantStatusNotification application new_status_enum ::
                  roleNotifications)

/-- The persisted application row after a handler run: an `ok` result commits
its row, an error response leaves the stored row unchanged. -/
def applyCommit (db : Application) : StatusUpdateResult → Application
  | .ok application _ _ => application
  | .err _ _ => db

/-- The data-model invariant tying the certificate column to the terminal
status. -/
def certInvariant (application : Application) : Prop :=
  application.certificate_number ≠ none ↔
    application.status = ApplicationStatus.CERTIFICATE_ISSUED

/-- Outcome of `POST /generate/<id>` (certificates.py): the committed
application row, or an HTTP error. -/
inductive GenerateCertificateResult where
  | ok (application : Application)
  | err (httpCode : Nat) (message : String)
deriving DecidableEq, Repr

/-- The `POST /generate/<id>` handler `generate_certificate`
(certificates.py lines 24-66): requires an approved or issued application,
stores the QR payload, forces the status to `CERTIFICATE_ISSUED`, backfills
`certificate_issued_at` only when it is still null, and never writes
`certificate_number`.  `qr` stands for the base64 QR image, `now` for
`datetime.utcnow()`. -/
def generate_certificate (application : Application) (qr : String) (now : Nat) :
    GenerateCertificateResult :=
  if application.status ≠ ApplicationStatus.APPROVED ∧
      application.status ≠ ApplicationStatus.CERTIFICATE_ISSUED then
    .err 400 "Application must be approved to generate certificate"
  else
    .ok { application with
            qr_code_data := some qr
            status := ApplicationStatus.CERTIFICATE_ISSUED
            certificate_issued_at :=
              match application.certificate_issued_at with
              | none => some now
              | some t => some t }

/-- The fields of the JSON body consumed by the applicant `PUT /<id>` handler:
`none` means the key is absent from `data`. -/
structure ApplicationUpdateData where
  organization_name : Option String
  acronym : Option String
  organization_email : Option String
  organization_phone : Option String
deriving DecidableEq, Repr

/-- The statuses in which the owner may edit the application
(application.py line 109). -/
def editableStatuses : List ApplicationStatus :=
  [.PENDING, .REVIEWING_AGAIN]

/-- Outcome of the applicant `PUT /<id>` handler.  `reviewingAgainEmit` is the
value of the post-commit test `application.status == REVIEWING_AGAIN` at line
177, `emitted` the value of the whole disjunction guarding the
`application_updated` broadcast. -/
inductive AppUpdateResult where
  | ok (application : Application) (comments : List ApplicationComment)
      (notifications : List Notification)
      (reviewingAgainEmit : Bool) (emitted : Bool)
  | err (httpCode : Nat) (message : String)
deriving DecidableEq, Repr

/-- One FBO-officer notification created when an application under
`REVIEWING_AGAIN` is updated by its owner (application.py lines 160-170). -/
def fboUpdateNotification (application : Application) (officer : Admin) :
    Notification :=
  { applicant_id := none
    admin_id := some officer.id
    application_id := application.id
    title := "Application Updated"
    message := "Application for " ++ application.organization_name ++
      " has been updated by the applicant" }

/-- The applicant `PUT /<id>` handler `update_application`
(application.py lines 94-196): ownership check, editable-state check,
required-field checks, field updates, comment insert, FBO fanout when the
prior status is `REVIEWING_AGAIN`, then the unconditional reset
`application.status = PENDING` at line 172 followed by the post-commit
broadcast test at line 177. -/
def update_application (applicant_id : Nat) (application : Application)
    (data : ApplicationUpdateData) (admins : List Admin) (now : Nat) :
    AppUpdateResult :=
  if application.applicant_id ≠ applicant_id then
    .err 403 "Access denied"
  else if application.status ∉ editableStatuses then
    .err 400 "Application cannot be edited in its current state"
  else if data.organization_name = some "" then
    .err 400 "Organization name is required"
  else if data.organization_email = some "" then
    .err 400 "Organization email is required"
  else if data.organization_phone = some "" then
    .err 400 "Organization phone is required"
  else
    let app1 : Application :=
      { application with
          organization_name :=
            (data.organization_name.map pyStrip).getD
              application.organization_name
          acronym :=
            match data.acronym with
            | none => application.acronym
            | some a => if a = "" then none else some (pyStrip a)
          organization_email :=
            (data.organization_email.map (fun e => pyLower (pyStrip e))).getD
              application.organization_email
          organization_phone :=
            (data.organization_phone.map pyStrip).getD
              application.organization_phone
          last_modified := now }
    let comments : List ApplicationComment :=
      [{ content :=
           "Application updated by applicant in response to review feedback."
         performed_by_id := applicant_id
         application_id := application.id }]
    let notifications : List Notification :=
      if application.status = ApplicationStatus.REVIEWING_AGAIN then
        (admins.filter fun a => a.role == AdminRole.FBO_OFFICER && a.enabled).map
          (fboUpdateNotification application)
      else []
    let app2 : Application := { app1 with status := ApplicationStatus.PENDING }
    let reviewingAgainEmit : Bool :=
      app2.status == ApplicationStatus.REVIEWING_AGAIN
    let emitted : Bool :=
      reviewingAgainEmit || (app2.status == ApplicationStatus.PENDING)
    .ok app2 comments notifications reviewingAgainEmit emitted

/-- The lost-update interleaving of two `PUT /status` requests on the same
application: both handlers load the same stored row `db0` (so both validate
against the same observed status), then their commits are applied in order.
This mirrors the load-mutate-unconditional-save pattern of the code, in which the
second commit is not conditioned on the status still being the one it
observed. -/
def lostUpdateSchedule (admins : List Admin) (a1 a2 : Admin)
    (db0 : Application) (s1 s2 c1 c2 : String) (year n1 n2 : Nat) :
    StatusUpdateResult × StatusUpdateResult × Application :=
  let r1 := update_application_status admins a1 db0 s1 c1 year n1
  let r2 := update_application_status admins a2 db0 s2 c2 year n2
  let db1 := applyCommit db0 r1
  let db2 := applyCommit db1 r2
  (r1, r2, db2)

/-! Sample rows used to instantiate theorems with hypotheses. -/

def sampleCeo : Admin := { id := 7, role := .CEO, enabled := true }

def sampleDm : Admin := { id := 5, role := .DIVISION_MANAGER, enabled := true }

def sampleFbo : Admin := { id := 2, role := .FBO_OFFICER, enabled := true }

def sampleCeoReviewApp : Application :=
  { id := 42
    applicant_id := 3
    processed_by_id := none
    organization_name := "Hope Org"
    organization_email := "hope@org.rw"
    organization_phone := "0788000000"
    acronym := none
    status := .CEO_REVIEW
    last_modified := 0
    certificate_number := none
    certificate_issued_at := none
    qr_code_data := none }

def samplePendingApp : Application :=
  { sampleCeoReviewApp with id := 43, status := .PENDING }

def sampleRejectedApp : Application :=
  { sampleCeoReviewApp with id := 44, status := .REJECTED }

def sampleIssuedApp : Application :=
  { sampleCeoReviewApp with
      id := 45
      status := .CERTIFICATE_ISSUED
      certificate_number := some "RGB-2024-000045"
      certificate_issued_at := some 1 }

/-! Facts about the transition table and the status enum, each checked by
exhaustive evaluation over the finite domains. -/

/-- Every entry of `valid_transitions` has a non-terminal current status and a
target list that contains neither `CERTIFICATE_ISSUED` nor the current status
itself. -/
theorem valid_transitions_entry_facts :
    ∀ (role : AdminRole) (st : ApplicationStatus),
      match valid_transitions role st with
      | some ts =>
          st ≠ ApplicationStatus.CERTIFICATE_ISSUED ∧
          st ≠ ApplicationStatus.REJECTED ∧
          ApplicationStatus.CERTIFICATE_ISSUED ∉ ts ∧
          st ∉ ts
      | none => True := by
  intro role st
  cases role <;> cases st <;> simp [valid_transitions]

/-- Parsing the `.value` string of a status recovers the status. -/
theorem applicationStatusOfValue_value :
    ∀ st : ApplicationStatus, applicationStatusOfValue st.value = some st := by
  decide

/-- No status has the empty string as its `.value`. -/
theorem applicationStatus_value_ne_empty :
    ∀ st : ApplicationStatus, st.value ≠ "" := by
  decide

/-- Every admin role is an outer key of the `valid_transitions` dict. -/
theorem mem_validTransitionRoles :
    ∀ r : AdminRole, r ∈ validTransitionRoles := by
  decide

/-- The transition table has no entry for either terminal status. -/
theorem valid_transitions_terminal_none :
    ∀ r : AdminRole,
      valid_transitions r ApplicationStatus.REJECTED = none ∧
      valid_transitions r ApplicationStatus.CERTIFICATE_ISSUED = none := by
  decide

/-- An error response leaves the stored application row unchanged. -/
theorem applyCommit_of_isErr (db : Application) (r : StatusUpdateResult)
    (h : r.isErr = true) : applyCommit db r = db := by
  cases r with
  | ok a cs ns => simp [StatusUpdateResult.isErr] at h
  | err code msg => rfl

/-- When the transition table has no entry for the acting role and current
status, the handler returns an error on every input. -/
theorem denied_when_no_entry (admins : List Admin) (admin : Admin)
    (application : Application) (s c : String) (year now : Nat)
    (hNone : valid_transitions admin.role application.status = none) :
    (update_application_status admins admin application s c year now).isErr = true := by
  unfold update_application_status
  split
  · rfl
  · split
    · rfl
    · split
      · rfl
      · split
        · rfl
        · rw [hNone]
          rfl

/-- C1: from `CEO_REVIEW`, an enabled CEO requesting `APPROVED` succeeds, the
committed status is `CERTIFICATE_ISSUED` (never `APPROVED`), and the returned
row carries the certificate number `"RGB-" ++ year ++ "-" ++ id` padded to six
digits. -/
theorem ceo_approval_issues_certificate (admins : List Admin) (admin : Admin)
    (application : Application) (comment : String) (year now : Nat)
    (hEn : admin.enabled = true) (hRole : admin.role = AdminRole.CEO)
    (hSt : application.status = ApplicationStatus.CEO_REVIEW) :
    ∃ app' comments notifs,
      update_application_status admins admin application "APPROVED" comment
          year now = .ok app' comments notifs ∧
      app'.status = ApplicationStatus.CERTIFICATE_ISSUED ∧
      app'.status ≠ ApplicationStatus.APPROVED ∧
      app'.certificate_number ≠ none ∧
      app'.certificate_number =
        some ("RGB-" ++ toString year ++ "-" ++ padZeros6 application.id) := by
  obtain ⟨aid, arole, aen⟩ := admin
  obtain ⟨i, apid, pbid, oname, oemail, ophone, acr, st, lm, cn, cia, qr⟩ :=
    application
  simp only at hEn hRole hSt
  subst hEn hRole hSt
  refine ⟨_, _, _, rfl, ?_, ?_, ?_, ?_⟩
  · rfl
  · exact fun h => ApplicationStatus.noConfusion h
  · exact fun h => Option.noConfusion h
  · rfl

/-- C1 witness: a concrete CEO approval from `CEO_REVIEW`. -/
theorem ceo_approval_issues_certificate_witness :
    ∃ app' comments notifs,
      update_application_status [] sampleCeo sampleCeoReviewApp "APPROVED" ""
          2025 9 = .ok app' comments notifs ∧
      app'.status = ApplicationStatus.CERTIFICATE_ISSUED ∧
      app'.status ≠ ApplicationStatus.APPROVED ∧
      app'.certificate_number ≠ none ∧
      app'.certificate_number =
        some ("RGB-" ++ toString 2025 ++ "-" ++ padZeros6 sampleCeoReviewApp.id) :=
  ceo_approval_issues_certificate [] sampleCeo sampleCeoReviewApp "" 2025 9
    rfl rfl rfl

/-- C2: `REJECTED` and `CERTIFICATE_ISSUED` are terminal — no role has any
allowed target from them, every status-update request on such an application
errors, and the stored row is unchanged. -/
theorem terminal_status_denies_all (admins : List Admin) (admin : Admin)
    (application : Application) (s c : String) (year now : Nat)
    (hSt : application.status = ApplicationStatus.REJECTED ∨
        application.status = ApplicationStatus.CERTIFICATE_ISSUED) :
    (∀ role : AdminRole, valid_transitions role application.status = none) ∧
    (update_application_status admins admin application s c year now).isErr =
      true ∧
    applyCommit application
      (update_application_status admins admin application s c year now) =
      application := by
  have hNone : ∀ role : AdminRole,
      valid_transitions role application.status = none := by
    intro role
    rcases hSt with h | h <;> rw [h]
    · exact (valid_transitions_terminal_none role).1
    · exact (valid_transitions_terminal_none role).2
  have hErr := denied_when_no_entry admins admin application s c year now
    (hNone admin.role)
  exact ⟨hNone, hErr, applyCommit_of_isErr _ _ hErr⟩

/-- C2 witness: a concrete request on a rejected application. -/
theorem terminal_status_denies_all_witness :
    (∀ role : AdminRole,
      valid_transitions role sampleRejectedApp.status = none) ∧
    (update_application_status [] sampleCeo sampleRejectedApp "CEO_REVIEW" ""
        2025 1).isErr = true ∧
    applyCommit sampleRejectedApp
      (update_application_status [] sampleCeo sampleRejectedApp "CEO_REVIEW" ""
        2025 1) = sampleRejectedApp :=
  terminal_status_denies_all [] sampleCeo sampleRejectedApp "CEO_REVIEW" ""
    2025 1 (Or.inl rfl)

/-- C3 counterexample: a division manager acting on an application in
`CEO_REVIEW` (a pair with no entry in the table) is denied with HTTP 400, not
403 as the claim states. -/
theorem no_entry_denial_counterexample :
    update_application_status [] sampleDm sampleCeoReviewApp "DM_REVIEW" ""
        2025 1 =
      .err 400 "Cannot update application in CEO_REVIEW status" ∧
    (400 : Nat) ≠ 403 := by
  exact ⟨rfl, by decide⟩

/-- C3 amended: for every (role, current status) pair that has no entry in the
transition table, every requested target status is denied, surfaced with HTTP
status code 400 and the message naming the current status. -/
theorem no_entry_denial_is_400 (admins : List Admin) (admin : Admin)
    (application : Application) (target : ApplicationStatus) (c : String)
    (year now : Nat) (hEn : admin.enabled = true)
    (hNone : valid_transitions admin.role application.status = none) :
    update_application_status admins admin application target.value c year
        now =
      .err 400 ("Cannot update application in " ++ application.status.value ++
        " status") := by
  unfold update_application_status
  simp [hEn, applicationStatus_value_ne_empty target,
    applicationStatusOfValue_value target, hNone,
    mem_validTransitionRoles admin.role]

/-- C3 amended witness: concrete instance of the 400 denial. -/
theorem no_entry_denial_is_400_witness :
    update_application_status [] sampleDm sampleCeoReviewApp
        (ApplicationStatus.DM_REVIEW).value "" 2025 1 =
      .err 400 ("Cannot update application in " ++
        sampleCeoReviewApp.status.value ++ " status") :=
  no_entry_denial_is_400 [] sampleDm sampleCeoReviewApp
    ApplicationStatus.DM_REVIEW "" 2025 1 rfl rfl

/-- Usable form of the transition-table facts. -/
theorem valid_transitions_entry_facts' (role : AdminRole)
    (st : ApplicationStatus) (ts : List ApplicationStatus)
    (h : valid_transitions role st = some ts) :
    st ≠ ApplicationStatus.CERTIFICATE_ISSUED ∧
    st ≠ ApplicationStatus.REJECTED ∧
    ApplicationStatus.CERTIFICATE_ISSUED ∉ ts ∧
    st ∉ ts := by
  have hf := valid_transitions_entry_facts role st
  rw [h] at hf
  exact hf

/-- C4: the biconditional "certificate number non-null iff status is
`CERTIFICATE_ISSUED`" is preserved by every invocation of the status-update
handler, successful or failed (an error response leaves the stored row
unchanged). -/
theorem cert_iff_issued_preserved (admins : List Admin) (admin : Admin)
    (application : Application) (s c : String) (year now : Nat)
    (hInv : certInvariant application) :
    certInvariant (applyCommit application
      (update_application_status admins admin application s c year now)) := by
  unfold update_application_status
  split
  · exact hInv
  · split
    · exact hInv
    · split
      · exact hInv
      · next ns heq =>
        split
        · exact hInv
        · split
          · exact hInv
          · next allowed hv =>
            split
            · exact hInv
            · next hmem =>
              have hmem' : ns ∈ allowed := not_not.mp hmem
              obtain ⟨h1, h2, h3, h4⟩ :=
                valid_transitions_entry_facts' admin.role application.status
                  allowed hv
              simp only [applyCommit]
              split
              · next happ =>
                constructor
                · intro _
                  rfl
                · intro _
                  exact fun hc => Option.noConfusion hc
              · next happ =>
                refine iff_of_false (fun hc => h1 (hInv.mp hc))
                  (fun he => h3 (he ▸ hmem'))

/-- C4 witness: the invariant holds after a concrete CEO approval of an
application satisfying it. -/
theorem cert_iff_issued_preserved_witness :
    certInvariant (applyCommit sampleCeoReviewApp
      (update_application_status [] sampleCeo sampleCeoReviewApp "APPROVED" ""
        2025 9)) :=
  cert_iff_issued_preserved [] sampleCeo sampleCeoReviewApp "APPROVED" "" 2025
    9 (by constructor
          · intro h
            exact absurd rfl h
          · intro h
            exact ApplicationStatus.noConfusion h)

/-- C5: no entry of the transition table allows a target equal to the current
status, a status-update request whose target equals the current status is
always denied, and the stored row is unchanged by the denied request. -/
theorem self_transition_denied (admins : List Admin) (admin : Admin)
    (application : Application) (c : String) (year now : Nat) :
    (∀ (role : AdminRole) (st : ApplicationStatus),
        match valid_transitions role st with
        | some ts => st ∉ ts
        | none => True) ∧
    (update_application_status admins admin application
        application.status.value c year now).isErr = true ∧
    applyCommit application (update_application_status admins admin application
        application.status.value c year now) = application := by
  have hno : ∀ (role : AdminRole) (st : ApplicationStatus),
      match valid_transitions role st with
      | some ts => st ∉ ts
      | none => True := by
    intro role st
    have h := valid_transitions_entry_facts role st
    cases hv : valid_transitions role st with
    | none => trivial
    | some ts =>
        rw [hv] at h
        exact h.2.2.2
  have herr : (update_application_status admins admin application
      application.status.value c year now).isErr = true := by
    unfold update_application_status
    split
    · rfl
    · split
      · rfl
      · split
        · rfl
        · next ns heq =>
          rw [applicationStatusOfValue_value] at heq
          injection heq with hns
          split
          · rfl
          · split
            · rfl
            · next allowed hv =>
              split
              · rfl
              · next hmem =>
                exfalso
                have h := hno admin.role application.status
                rw [hv] at h
                exact (hns ▸ h) (not_not.mp hmem)
  exact ⟨hno, herr, applyCommit_of_isErr _ _ herr⟩

/-- C6 counterexample: a successful transition whose comment is empty inserts
zero audit comment records, not exactly one (`commentRows` is `some` only on
success). -/
theorem exactly_one_audit_record_counterexample :
    (update_application_status [sampleFbo] sampleFbo samplePendingApp
        "FBO_REVIEW" "" 2025 4).commentRows = some [] := by
  rfl

/-- C6 amended: every successful status update inserts one audit comment
record when the trimmed comment is non-empty and none otherwise, always at
least one notification addressed to the owning applicant, and — when the
target is a handoff status — one admin notification per enabled admin holding
the next role. -/
theorem transition_side_effects (admins : List Admin) (admin : Admin)
    (application : Application) (s c : String) (year now : Nat)
    (app' : Application) (comments : List ApplicationComment)
    (notifs : List Notification)
    (hOk : update_application_status admins admin application s c year now =
      .ok app' comments notifs) :
    comments.length = (if pyStrip c = "" then 0 else 1) ∧
    1 ≤ (notifs.filter fun n =>
        n.applicant_id == some application.applicant_id).length ∧
    ∀ (ns : ApplicationStatus) (r : AdminRole),
      applicationStatusOfValue s = some ns → next_role_map ns = some r →
      (notifs.filter fun n => n.admin_id.isSome).length =
        (admins.filter fun a => a.role == r && a.enabled).length := by
  unfold update_application_status at hOk
  split at hOk
  · exact StatusUpdateResult.noConfusion hOk
  · split at hOk
    · exact StatusUpdateResult.noConfusion hOk
    · split at hOk
      · exact StatusUpdateResult.noConfusion hOk
      · next ns0 heq =>
        split at hOk
        · exact StatusUpdateResult.noConfusion hOk
        · split at hOk
          · exact StatusUpdateResult.noConfusion hOk
          · next allowed hv =>
            split at hOk
            · exact StatusUpdateResult.noConfusion hOk
            · injection hOk with happ hcom hnot
              subst happ hcom hnot
              refine ⟨?_, ?_, ?_⟩
              · by_cases hc : pyStrip c = "" <;> simp [hc]
              · simp [List.filter_cons, applicantStatusNotification]
              · intro ns r hparse hnext
                rw [heq] at hparse
                injection hparse with hns
                subst hns
                rw [hnext]
                rw [List.filter_cons_of_neg (by simp [applicantStatusNotification])]
                rw [List.filter_eq_self.mpr ?_]
                · exact List.length_map _ _
                · intro x hx
                  obtain ⟨a, _, rfl⟩ := List.mem_map.mp hx
                  rfl

def sampleFboReviewApp : Application :=
  { sampleCeoReviewApp with id := 46, status := .FBO_REVIEW }

def sampleHandoffApp : Application :=
  { sampleFboReviewApp with
      status := .TRANSFER_TO_DM
      processed_by_id := some 2
      last_modified := 5 }

def sampleHandoffComments : List ApplicationComment :=
  [{ content := "complete", performed_by_id := 2, application_id := 46 }]

def sampleHandoffNotifs : List Notification :=
  [applicantStatusNotification sampleFboReviewApp .TRANSFER_TO_DM,
   nextRoleNotification sampleFboReviewApp sampleDm]

/-- C6 amended witness: a concrete handoff transition with a non-empty
comment, one enabled division manager in the admin table. -/
theorem transition_side_effects_witness :
    sampleHandoffComments.length =
      (if pyStrip "complete" = "" then 0 else 1) ∧
    1 ≤ (sampleHandoffNotifs.filter fun n =>
        n.applicant_id == some sampleFboReviewApp.applicant_id).length ∧
    ∀ (ns : ApplicationStatus) (r : AdminRole),
      applicationStatusOfValue "TRANSFER_TO_DM" = some ns →
      next_role_map ns = some r →
      (sampleHandoffNotifs.filter fun n => n.admin_id.isSome).length =
        (([sampleFbo, sampleDm] : List Admin).filter fun a =>
          a.role == r && a.enabled).length :=
  transition_side_effects [sampleFbo, sampleDm] sampleFbo sampleFboReviewApp
    "TRANSFER_TO_DM" "complete" 2025 5 sampleHandoffApp sampleHandoffComments
    sampleHandoffNotifs rfl

def sampleCeoB : Admin := { id := 8, role := .CEO, enabled := true }

/-- C7 evidence: two status updates racing on the same observed snapshot
(`CEO_REVIEW`): the code validates each against the stale read and commits
unconditionally, so both invocations succeed (no `ConcurrentModification`
or any other error) and the second commit silently overwrites the
`REJECTED` outcome the first actor had already persisted. -/
theorem concurrent_updates_both_succeed :
    (lostUpdateSchedule [] sampleCeo sampleCeoB sampleCeoReviewApp "REJECTED"
        "APPROVED" "" "" 2025 1 2).1.isErr = false ∧
    (lostUpdateSchedule [] sampleCeo sampleCeoB sampleCeoReviewApp "REJECTED"
        "APPROVED" "" "" 2025 1 2).2.1.isErr = false ∧
    (lostUpdateSchedule [] sampleCeo sampleCeoB sampleCeoReviewApp "REJECTED"
        "APPROVED" "" "" 2025 1 2).1.httpCode = none ∧
    (lostUpdateSchedule [] sampleCeo sampleCeoB sampleCeoReviewApp "REJECTED"
        "APPROVED" "" "" 2025 1 2).2.1.httpCode = none ∧
    (applyCommit sampleCeoReviewApp
      (lostUpdateSchedule [] sampleCeo sampleCeoB sampleCeoReviewApp "REJECTED"
        "APPROVED" "" "" 2025 1 2).1).status = ApplicationStatus.REJECTED ∧
    (lostUpdateSchedule [] sampleCeo sampleCeoB sampleCeoReviewApp "REJECTED"
        "APPROVED" "" "" 2025 1 2).2.2.status =
      ApplicationStatus.CERTIFICATE_ISSUED := by
  exact ⟨rfl, rfl, rfl, rfl, rfl, rfl⟩

/-- C8: a status string outside the enumerated set is rejected with HTTP 400
for every admin role and every application state — never with an
authorization-class 403. -/
theorem unknown_status_is_validation_error (admins : List Admin)
    (admin : Admin) (application : Application) (s c : String)
    (year now : Nat) (hEn : admin.enabled = true)
    (hs : applicationStatusOfValue s = none) :
    (update_application_status admins admin application s c year
      now).httpCode = some 400 := by
  unfold update_application_status
  rw [if_neg (by simp [hEn])]
  by_cases hempty : s = ""
  · rw [if_pos hempty]
    rfl
  · rw [if_neg hempty, hs]
    rfl

/-- C8 witness: a concrete unknown literal, CEO admin, terminal application. -/
theorem unknown_status_is_validation_error_witness :
    (update_application_status [] sampleCeo sampleIssuedApp "BOGUS" "" 2025
      1).httpCode = some 400 :=
  unknown_status_is_validation_error [] sampleCeo sampleIssuedApp "BOGUS" ""
    2025 1 rfl rfl

/-- C9: certificate issuance is idempotent — `generate_certificate` never
rewrites `certificate_number` (re-invoking it returns the row with the
existing identifier, and a second invocation yields the same identifier), and
once an application is in `CERTIFICATE_ISSUED` (the state in which a
certificate exists) the status-update path that generates the number can
never run again. -/
theorem certificate_issuance_idempotent :
    (∀ (application : Application) (qr : String) (now : Nat)
        (app' : Application),
        generate_certificate application qr now = .ok app' →
        app'.certificate_number = application.certificate_number) ∧
    (∀ (application : Application) (qr1 qr2 : String) (n1 n2 : Nat)
        (app1 app2 : Application),
        generate_certificate application qr1 n1 = .ok app1 →
        generate_certificate app1 qr2 n2 = .ok app2 →
        app2.certificate_number = app1.certificate_number) ∧
    (∀ (admins : List Admin) (admin : Admin) (application : Application)
        (s c : String) (year now : Nat),
        application.status = ApplicationStatus.CERTIFICATE_ISSUED →
        (update_application_status admins admin application s c year
          now).isErr = true) := by
  have hpres : ∀ (application : Application) (qr : String) (now : Nat)
      (app' : Application),
      generate_certificate application qr now = .ok app' →
      app'.certificate_number = application.certificate_number := by
    intro application qr now app' h
    unfold generate_certificate at h
    split at h
    · exact GenerateCertificateResult.noConfusion h
    · injection h with h'
      rw [← h']
  refine ⟨hpres, ?_, ?_⟩
  · intro application qr1 qr2 n1 n2 app1 app2 _h1 h2
    exact hpres app1 qr2 n2 app2 h2
  · intro admins admin application s c year now hSt
    exact denied_when_no_entry admins admin application s c year now
      (by rw [hSt]; exact (valid_transitions_terminal_none admin.role).2)

def sampleIssuedGen : Application :=
  { sampleIssuedApp with qr_code_data := some "qr" }

/-- C9 witness: re-issuing on an already-issued application keeps the
identifier, twice over, and the workflow path is denied. -/
theorem certificate_issuance_idempotent_witness :
    sampleIssuedGen.certificate_number = sampleIssuedApp.certificate_number ∧
    sampleIssuedGen.certificate_number = sampleIssuedGen.certificate_number ∧
    (update_application_status [] sampleCeo sampleIssuedApp "CEO_REVIEW" ""
      2025 3).isErr = true :=
  ⟨certificate_issuance_idempotent.1 sampleIssuedApp "qr" 9 sampleIssuedGen
      rfl,
   certificate_issuance_idempotent.2.1 sampleIssuedApp "qr" "qr" 9 9
      sampleIssuedGen sampleIssuedGen rfl rfl,
   certificate_issuance_idempotent.2.2 [] sampleCeo sampleIssuedApp
      "CEO_REVIEW" "" 2025 3 rfl⟩

/-- C10: every successful applicant-initiated update requires the prior
status to be `PENDING` or `REVIEWING_AGAIN`, always leaves the application in
`PENDING`, and the post-commit broadcast test for `REVIEWING_AGAIN` is never
true (the broadcast fires through the `PENDING` disjunct instead). -/
theorem applicant_update_resets_to_pending (applicant_id : Nat)
    (application : Application) (data : ApplicationUpdateData)
    (admins : List Admin) (now : Nat) (app' : Application)
    (comments : List ApplicationComment) (notifs : List Notification)
    (raEmit emitted : Bool)
    (hOk : update_application applicant_id application data admins now =
      .ok app' comments notifs raEmit emitted) :
    (application.status = ApplicationStatus.PENDING ∨
      application.status = ApplicationStatus.REVIEWING_AGAIN) ∧
    app'.status = ApplicationStatus.PENDING ∧
    raEmit = false ∧ emitted = true := by
  unfold update_application at hOk
  split at hOk
  · exact AppUpdateResult.noConfusion hOk
  · split at hOk
    · exact AppUpdateResult.noConfusion hOk
    · split at hOk
      · exact AppUpdateResult.noConfusion hOk
      · split at hOk
        · exact AppUpdateResult.noConfusion hOk
        · split at hOk
          · exact AppUpdateResult.noConfusion hOk
          · next h1 h2 h3 h4 h5 =>
            injection hOk with happ hcom hnot hra hem
            subst happ hra hem
            refine ⟨?_, rfl, rfl, rfl⟩
            · have h2' : application.status ∈ editableStatuses :=
                not_not.mp h2
              simpa [editableStatuses] using h2'

def sampleUpdatedApp : Application :=
  { samplePendingApp with last_modified := 7 }

def sampleUpdateComments : List ApplicationComment :=
  [{ content :=
       "Application updated by applicant in response to review feedback."
     performed_by_id := 3
     application_id := 43 }]

/-- C10 witness: a concrete owner update of a pending application. -/
theorem applicant_update_resets_to_pending_witness :
    (samplePendingApp.status = ApplicationStatus.PENDING ∨
      samplePendingApp.status = ApplicationStatus.REVIEWING_AGAIN) ∧
    sampleUpdatedApp.status = ApplicationStatus.PENDING ∧
    (false : Bool) = false ∧ (true : Bool) = true :=
  applicant_update_resets_to_pending 3 samplePendingApp
    ⟨none, none, none, none⟩ [] 7 sampleUpdatedApp sampleUpdateComments []
    false true rfl
